import Mathlib

set_option linter.unusedVariables false

/-!
Shallow embedding of the metrics-extraction service implemented by
`src/health_analysis_zh.py` (the "zh" variant) and
`src/health_analysis_api.py` (the "api" variant).

Python strings are modelled as `List Char` internally (structural
recursion lets all definitions evaluate inside the kernel); the public
entry points take Lean `String`s.  Machine integers do not occur: all
numeric values are unbounded in Python as well.
-/

/-- Model of Python `str.strip()` on a character list (leading and trailing
whitespace removed; ASCII whitespace, matching the common case of
`str.strip`). -/
def trimChars (l : List Char) : List Char :=
  ((l.dropWhile Char.isWhitespace).reverse.dropWhile Char.isWhitespace).reverse

/-- Model of Python `s.split("\n")`: split into lines at newline characters;
the empty string yields one empty line, a trailing newline yields a trailing
empty line. -/
def splitLines : List Char → List (List Char)
  | [] => [[]]
  | c :: rest =>
    if c = '\n' then [] :: splitLines rest
    else
      match splitLines rest with
      | [] => [[c]]
      | line :: lines => (c :: line) :: lines

/-- Model of Python `line.startswith("###")`. -/
def startsWithHash3 (l : List Char) : Bool :=
  match l with
  | a :: b :: c :: _ => a == '#' && b == '#' && c == '#'
  | _ => false

/-- Model of Python `line.replace("###", "")`: remove every non-overlapping
occurrence of `###`, scanning left to right. -/
def removeHash3 : List Char → List Char
  | '#' :: '#' :: '#' :: rest => removeHash3 rest
  | c :: rest => c :: removeHash3 rest
  | [] => []

/-- Model of Python `line.split(":", 1)` under the guarantee that a colon is
present: the part before the first colon and the part after it. -/
def splitFirstColon : List Char → List Char × List Char
  | [] => ([], [])
  | c :: rest =>
    if c = ':' then ([], rest)
    else
      let p := splitFirstColon rest
      (c :: p.1, p.2)

/-- Decimal value of a list of digit characters. -/
def digitsToNat (l : List Char) : Nat :=
  l.foldl (fun n c => 10 * n + (c.toNat - 48)) 0

/-- Parse a list of characters that must consist entirely of decimal digits. -/
def parseAllDigits (l : List Char) : Option Nat :=
  if l.isEmpty then none
  else if l.all Char.isDigit then some (digitsToNat l) else none

/-- Model of Python `int(s)` on a string (ASCII case): surrounding whitespace
is ignored, an optional sign is allowed, and the remainder must be a
non-empty run of decimal digits; anything else raises `ValueError`,
modelled as `none`. -/
def parseIntPy (l : List Char) : Option Int :=
  match trimChars l with
  | '-' :: rest => (parseAllDigits rest).map (fun n => -(n : Int))
  | '+' :: rest => (parseAllDigits rest).map (fun n => (n : Int))
  | other => (parseAllDigits other).map (fun n => (n : Int))

/-- Model of Python `s.replace("%", "")`. -/
def removePercent (l : List Char) : List Char :=
  l.filter (fun c => c != '%')

/-- Model of Python `re.search(r"\d+", s)` (ASCII digits): the first maximal
contiguous run of decimal digits in `s`, or `none` when `s` has no digit. -/
def firstDigitRunApi (l : List Char) : Option (List Char) :=
  if (l.dropWhile (fun c => ! c.isDigit)).isEmpty then none
  else some ((l.dropWhile (fun c => ! c.isDigit)).takeWhile Char.isDigit)

/-- One metric category: the dict
`{"title": ..., "labels": [...], "values": [...]}` built by
`generate_metrics_with_ai` in both variants. -/
structure MetricBlock where
  title : String
  labels : List String
  values : List Int
deriving DecidableEq, Repr

/-- The scanning accumulators of `generate_metrics_with_ai`:
`metrics`, `current_title`, `labels`, `values`. -/
structure ScanState where
  metrics : List MetricBlock
  currentTitle : List Char
  labels : List (List Char)
  values : List Int
deriving DecidableEq, Repr

/-- The zh variant's flush: `if current_title: metrics.append({...})`
(src/health_analysis_zh.py lines 121-122 and 131-132); no check that any
label/value pair was accumulated. -/
def zhFlush (st : ScanState) : List MetricBlock :=
  if st.currentTitle.isEmpty then st.metrics
  else st.metrics ++
    [{ title := String.mk st.currentTitle,
       labels := st.labels.map String.mk,
       values := st.values }]

/-- One loop iteration of the zh variant's parser
(src/health_analysis_zh.py lines 119-130).  The raw line is used: no
per-line strip and no blank-line skip.  On a metric line the label is
appended first and the value parse may then fail (`except ValueError:
continue`), in which case the label stays appended. -/
def zhStep (st : ScanState) (line : List Char) : ScanState :=
  if startsWithHash3 line then
    { metrics := zhFlush st,
      currentTitle := trimChars (removeHash3 line),
      labels := [], values := [] }
  else if line.any (fun c => c == ':') then
    match parseIntPy (removePercent (trimChars (splitFirstColon line).2)) with
    | some n =>
      { st with labels := st.labels ++ [trimChars (splitFirstColon line).1],
                values := st.values ++ [n] }
    | none =>
      { st with labels := st.labels ++ [trimChars (splitFirstColon line).1] }
  else st

/-- The zh variant's fallback document
(src/health_analysis_zh.py lines 133 and 136). -/
def zhFallback : MetricBlock :=
  { title := "默认指标", labels := ["指标A", "指标B"], values := [50, 75] }

/-- The zh variant's reply parsing (src/health_analysis_zh.py lines
117-133): strip the reply, split into lines, run the scan, flush the open
category, and substitute the fallback when no block was produced
(`return metrics or [...]`). -/
def zhExtract (content : String) : List MetricBlock :=
  let ms := zhFlush ((splitLines (trimChars content.data)).foldl zhStep
    { metrics := [], currentTitle := [], labels := [], values := [] })
  if ms.isEmpty then [zhFallback] else ms

/-- The api variant's flush: `if current_title and labels and values:
metrics.append({...})` (src/health_analysis_api.py lines 97-98 and
112-113). -/
def apiFlush (st : ScanState) : List MetricBlock :=
  if st.currentTitle.isEmpty || st.labels.isEmpty || st.values.isEmpty then
    st.metrics
  else st.metrics ++
    [{ title := String.mk st.currentTitle,
       labels := st.labels.map String.mk,
       values := st.values }]

/-- One loop iteration of the api variant's parser
(src/health_analysis_api.py lines 92-110): the line is stripped first,
blank lines are skipped, and on a metric line the first digit run of the
value part is searched before anything is appended, so the accumulators
move in lockstep. -/
def apiStep (st : ScanState) (line0 : List Char) : ScanState :=
  if (trimChars line0).isEmpty then st
  else if startsWithHash3 (trimChars line0) then
    { metrics := apiFlush st,
      currentTitle := trimChars (removeHash3 (trimChars line0)),
      labels := [], values := [] }
  else if (trimChars line0).any (fun c => c == ':') then
    match firstDigitRunApi (splitFirstColon (trimChars line0)).2 with
    | some run =>
      { st with labels := st.labels ++ [trimChars (splitFirstColon (trimChars line0)).1],
                values := st.values ++ [(digitsToNat run : Int)] }
    | none => st
  else st

/-- The api variant's fallback document for an unparseable reply
(src/health_analysis_api.py line 117). -/
def apiFallback : MetricBlock :=
  { title := "Default Metrics",
    labels := ["Data Point A", "Data Point B", "Data Point C"],
    values := [65, 75, 85] }

/-- The api variant's reply parsing (src/health_analysis_api.py lines
90-118). -/
def apiExtract (content : String) : List MetricBlock :=
  let ms := apiFlush ((splitLines (trimChars content.data)).foldl apiStep
    { metrics := [], currentTitle := [], labels := [], values := [] })
  if ms.isEmpty then [apiFallback] else ms

/-- A calendar date as used by `compute_age` in the zh variant. -/
structure SimpleDate where
  year : Int
  month : Nat
  day : Nat
deriving DecidableEq, Repr

/-- `compute_age` of src/health_analysis_zh.py lines 47-53: the parsed
birth date (or `none` when `dateutil.parser.parse` raises) and today's
date give `today.year - dt.year - ((today.month, today.day) < (dt.month,
dt.day))`, where the tuple comparison is lexicographic; any parse failure
yields 0. -/
def compute_age_zh (today : SimpleDate) (dob : Option SimpleDate) : Int :=
  match dob with
  | none => 0
  | some dt =>
    today.year - dt.year -
      (if today.month < dt.month ∨ (today.month = dt.month ∧ today.day < dt.day)
       then 1 else 0)

/-- `compute_age` of src/health_analysis_api.py lines 66-70: only the birth
year is used (`datetime.now().year - int(dob_year)`); a failed `int`
conversion (modelled as `none`) yields 0. -/
def compute_age_api (currentYear : Int) (dobYear : Option Int) : Int :=
  match dobYear with
  | none => 0
  | some y => currentYear - y

/-- Outcome of a call into the external text generator, or of the wrapper
around it: `ok` is a returned string, `error` models a raised exception. -/
inductive GenOutcome where
  | ok (text : String)
  | error (msg : String)
deriving DecidableEq, Repr

/-- `get_openai_response` of src/health_analysis_zh.py lines 92-102: the
whole API call sits inside `try/except Exception`, so an exceptional
outcome of the underlying call is replaced by the fixed warning string and
nothing is ever raised. -/
def get_openai_response_zh (outcome : GenOutcome) : GenOutcome :=
  match outcome with
  | GenOutcome.ok t => GenOutcome.ok t
  | GenOutcome.error _ => GenOutcome.ok "⚠️ 无法生成回应。"

/-- `get_openai_response` of src/health_analysis_api.py lines 72-85:
`if not client: raise Exception(...)` runs BEFORE the `try` block, so with
an unconfigured client (`clientOk = false`) the wrapper itself raises;
otherwise an exceptional call outcome is replaced by the fixed sentinel. -/
def get_openai_response_api (clientOk : Bool) (outcome : GenOutcome) : GenOutcome :=
  if !clientOk then
    GenOutcome.error "OpenAI client not initialized. Check server logs for API Key issues."
  else
    match outcome with
    | GenOutcome.ok t => GenOutcome.ok t
    | GenOutcome.error _ =>
      GenOutcome.ok "⚠️ AI response generation failed due to a server error. Please try again later."

/-- Model of Python `", ".join(l)`. -/
def joinComma : List String → String
  | [] => ""
  | [x] => x
  | x :: rest => x ++ ", " ++ joinComma rest

/-- Outcome of the HTTP handler front end relevant to input validation:
either an early 400-class JSON error, or control reaching the first call
into the text generator. -/
inductive HandlerOutcome where
  | badRequest (msg : String)
  | invokedGenerator
deriving DecidableEq, Repr

/-- The required JSON fields checked by the api variant
(src/health_analysis_api.py line 132). -/
def requiredFields : List String :=
  ["dob_year", "gender", "country", "condition", "details"]

/-- Python falsiness of `data.get(field)`: absent or empty. -/
def fieldFalsy (v : Option String) : Bool :=
  match v with
  | none => true
  | some s => s.isEmpty

/-- `[field for field in required_fields if not data.get(field)]`
(src/health_analysis_api.py line 133). -/
def missing_fields (data : String → Option String) : List String :=
  requiredFields.filter (fun f => fieldFalsy (data f))

/-- Validation front end of `health_analyze` in the api variant
(src/health_analysis_api.py lines 128-150): reject absent JSON, reject
missing required fields with a message listing their names, otherwise
proceed to `generate_metrics_with_ai`. -/
def health_analyze_api (hasJson : Bool) (data : String → Option String) : HandlerOutcome :=
  if !hasJson then
    HandlerOutcome.badRequest "Invalid request. No JSON data received."
  else if !(missing_fields data).isEmpty then
    HandlerOutcome.badRequest ("Missing required fields: " ++ joinComma (missing_fields data))
  else HandlerOutcome.invokedGenerator

/-- The normalized language of a zh-variant request:
`data.get("lang", "zh").strip().lower()` (src/health_analysis_zh.py
line 223). -/
def zhLang (data : String → Option String) : String :=
  String.mk ((trimChars ((data "lang").getD "zh").data).map Char.toLower)

/-- Validation front end of `health_analyze` in the zh variant
(src/health_analysis_zh.py lines 220-248): the only early 400 is the
language check; no required-field validation exists, and control otherwise
proceeds to `generate_metrics_with_ai`. -/
def health_analyze_zh (data : String → Option String) : HandlerOutcome :=
  if zhLang data ≠ "zh" then
    HandlerOutcome.badRequest "This endpoint only supports Chinese (zh)."
  else HandlerOutcome.invokedGenerator

/-- The flattened `label (value%)` strings of
`build_summary_prompt` in the zh variant (src/health_analysis_zh.py lines
62-66): blocks in order, pairs within a block in order, pairs beyond the
zip of labels and values dropped. -/
def pairStrings : List MetricBlock → List String
  | [] => []
  | b :: rest =>
    (b.labels.zip b.values).map (fun p => p.1 ++ " (" ++ toString p.2 ++ "%)")
      ++ pairStrings rest

/-- `", ".join([...][:9])` of src/health_analysis_zh.py lines 62-66. -/
def metrics_summary (metrics : List MetricBlock) : String :=
  joinComma ((pairStrings metrics).take 9)

/-- The constant-plus-fields text of `build_summary_prompt` before the
embedded metrics summary (src/health_analysis_zh.py lines 69-70). -/
def summary_prompt_head (age : Int) (gender country concern : String) : String :=
  "任务：面向来自 " ++ country ++ "、年龄约 " ++ toString age ++ " 岁的 " ++ gender
    ++ " 群体，撰写一份四段式健康分析，其主要问题为“" ++ concern ++ "”。请使用以下数据："

/-- The instruction text of `build_summary_prompt` after the embedded
metrics summary (src/health_analysis_zh.py lines 70-76). -/
def summary_prompt_tail (country gender : String) : String :=
  "。\n\n指令：\n"
    ++ "1. **深入分析**：不要只重复数据，阐述这些比例对该群体意味着什么，并分析指标之间的联系。\n"
    ++ "2. **内容丰富**：每段都提供有价值的背景信息，语气同理心且专业。\n"
    ++ "3. **匿名措辞**：严禁出现第二人称或“该用户/个体”，用“类似年龄段的 " ++ country ++ " " ++ gender ++ "”等表述。\n"
    ++ "4. **整合数据**：每段自然融入至少一个具体百分比。\n"

/-- `build_summary_prompt` of src/health_analysis_zh.py lines 56-76 (the
`notes` argument is accepted but unused, exactly as in the source). -/
def build_summary_prompt_zh (age : Int) (gender country concern notes : String)
    (metrics : List MetricBlock) : String :=
  summary_prompt_head age gender country concern ++ metrics_summary metrics
    ++ summary_prompt_tail country gender

/-- A request body with every field absent. -/
def emptyBody : String → Option String := fun _ => none

/-- A request body missing only the `gender` field (and with no `lang`
override). -/
def missingGenderBody : String → Option String := fun f =>
  if f = "gender" then none
  else if f = "lang" then none
  else some "x"

/-- A sample metrics document with eleven flattened pairs. -/
def sampleMetrics : List MetricBlock :=
  [{ title := "T1",
     labels := ["a", "b", "c", "d", "e", "f"],
     values := [1, 2, 3, 4, 5, 6] },
   { title := "T2",
     labels := ["g", "h", "i", "j", "k"],
     values := [7, 8, 9, 10, 11] }]

/-! ## Helper lemmas -/

/-- A document guarded by the fallback substitution is never empty. -/
theorem ite_fallback_ne_nil (ms : List MetricBlock) (fb : MetricBlock) :
    (if ms.isEmpty then [fb] else ms) ≠ [] := by
  split
  · simp
  · rename_i h
    cases ms with
    | nil => exact absurd rfl h
    | cons a l => simp

/-- Stripping surrounding whitespace keeps a leading `###` marker. -/
theorem startsWithHash3_trimChars (l : List Char) (h : startsWithHash3 l = true) :
    startsWithHash3 (trimChars l) = true := by
  match l, h with
  | a :: b :: c :: t, h =>
    simp only [startsWithHash3, Bool.and_eq_true, beq_iff_eq] at h
    obtain ⟨⟨ha, hb⟩, hc⟩ := h
    subst ha; subst hb; subst hc
    unfold trimChars
    have hws : Char.isWhitespace '#' = false := by decide
    rw [List.dropWhile_cons_of_neg (by simp [hws])]
    have hrev : ('#' :: '#' :: '#' :: t).reverse = t.reverse ++ ['#', '#', '#'] := by
      simp
    rw [hrev, List.dropWhile_append]
    split
    · decide
    · rw [List.reverse_append]
      simp [startsWithHash3]

/-- A scan of marker-free lines in the zh variant never opens a category
and never emits a block. -/
theorem zh_scan_no_marker : ∀ (lines : List (List Char)) (st : ScanState),
    (∀ l ∈ lines, startsWithHash3 l = false) →
    st.metrics = [] → st.currentTitle = [] →
    (lines.foldl zhStep st).metrics = [] ∧ (lines.foldl zhStep st).currentTitle = []
  | [], st, _, h1, h2 => ⟨h1, h2⟩
  | l :: ls, st, H, h1, h2 => by
    have hl : startsWithHash3 l = false := H l (List.mem_cons_self l ls)
    have hstep : (zhStep st l).metrics = [] ∧ (zhStep st l).currentTitle = [] := by
      unfold zhStep
      rw [if_neg (by simp [hl])]
      split
      · split <;> exact ⟨h1, h2⟩
      · exact ⟨h1, h2⟩
    exact zh_scan_no_marker ls (zhStep st l)
      (fun l2 hm => H l2 (List.mem_cons_of_mem _ hm)) hstep.1 hstep.2

/-- A scan of lines none of which strips to a marker line in the api
variant never opens a category and never emits a block. -/
theorem api_scan_no_marker : ∀ (lines : List (List Char)) (st : ScanState),
    (∀ l ∈ lines, startsWithHash3 (trimChars l) = false) →
    st.metrics = [] → st.currentTitle = [] →
    (lines.foldl apiStep st).metrics = [] ∧ (lines.foldl apiStep st).currentTitle = []
  | [], st, _, h1, h2 => ⟨h1, h2⟩
  | l :: ls, st, H, h1, h2 => by
    have hl : startsWithHash3 (trimChars l) = false := H l (List.mem_cons_self l ls)
    have hstep : (apiStep st l).metrics = [] ∧ (apiStep st l).currentTitle = [] := by
      unfold apiStep
      split
      · exact ⟨h1, h2⟩
      · rw [if_neg (by simp [hl])]
        split
        · split <;> exact ⟨h1, h2⟩
        · exact ⟨h1, h2⟩
    exact api_scan_no_marker ls (apiStep st l)
      (fun l2 hm => H l2 (List.mem_cons_of_mem _ hm)) hstep.1 hstep.2

/-! ## Claims -/

/-- Claim C1: for every reply text fed to the metrics extractor, extraction
terminates normally (both `zhExtract` and `apiExtract` are total Lean
functions; every exception of the Python code is caught inside
`generate_metrics_with_ai`) and the returned document contains at least
one block, in both variants. -/
theorem c1_extraction_total_nonempty (s : String) :
    zhExtract s ≠ [] ∧ apiExtract s ≠ [] := by
  constructor
  · show (let ms := _; if List.isEmpty ms then [zhFallback] else ms) ≠ []
    exact ite_fallback_ne_nil _ _
  · show (let ms := _; if List.isEmpty ms then [apiFallback] else ms) ≠ []
    exact ite_fallback_ne_nil _ _

/-- Witness for C1 at a concrete input. -/
theorem c1_extraction_total_nonempty_witness :
    zhExtract "some plain reply" ≠ [] ∧ apiExtract "some plain reply" ≠ [] :=
  c1_extraction_total_nonempty "some plain reply"

/-- Counterexample for C2 as stated: on an input with zero category-marker
lines the api variant's fallback block carries three placeholder
label/value pairs, not two. -/
theorem c2_counterexample :
    apiExtract "plain text without markers"
      = [{ title := "Default Metrics",
           labels := ["Data Point A", "Data Point B", "Data Point C"],
           values := [65, 75, 85] }]
    ∧ (["Data Point A", "Data Point B", "Data Point C"] : List String).length ≠ 2 := by
  constructor
  · decide
  · decide

/-- Claim C2 (amended): for every input text in which no line strips to a
line starting with `###`, each variant returns exactly its own
deterministic single-block fallback document; the zh fallback carries two
placeholder pairs and the api fallback three. -/
theorem c2_no_marker_gives_fallback (s : String)
    (H : ∀ l ∈ splitLines (trimChars s.data), startsWithHash3 (trimChars l) = false) :
    zhExtract s = [zhFallback] ∧ apiExtract s = [apiFallback] := by
  have Hraw : ∀ l ∈ splitLines (trimChars s.data), startsWithHash3 l = false := by
    intro l hm
    cases hr : startsWithHash3 l with
    | false => rfl
    | true =>
      have := startsWithHash3_trimChars l hr
      rw [H l hm] at this
      exact absurd this (by simp)
  constructor
  · obtain ⟨hm, ht⟩ := zh_scan_no_marker (splitLines (trimChars s.data))
      { metrics := [], currentTitle := [], labels := [], values := [] } Hraw rfl rfl
    show (let ms := _; if List.isEmpty ms then [zhFallback] else ms) = _
    have hflush : zhFlush ((splitLines (trimChars s.data)).foldl zhStep
        { metrics := [], currentTitle := [], labels := [], values := [] }) = [] := by
      unfold zhFlush
      rw [ht, hm]
      simp
    simp only [hflush]
    rfl
  · obtain ⟨hm, ht⟩ := api_scan_no_marker (splitLines (trimChars s.data))
      { metrics := [], currentTitle := [], labels := [], values := [] } H rfl rfl
    show (let ms := _; if List.isEmpty ms then [apiFallback] else ms) = _
    have hflush : apiFlush ((splitLines (trimChars s.data)).foldl apiStep
        { metrics := [], currentTitle := [], labels := [], values := [] }) = [] := by
      unfold apiFlush
      rw [ht, hm]
      simp
    simp only [hflush]
    rfl

/-- Witness for C2 (amended) at a concrete marker-free input. -/
theorem c2_no_marker_gives_fallback_witness :
    (∀ l ∈ splitLines (trimChars ("hello: 42%" : String).data),
        startsWithHash3 (trimChars l) = false)
    ∧ (zhExtract "hello: 42%" = [zhFallback] ∧ apiExtract "hello: 42%" = [apiFallback]) :=
  ⟨by decide, c2_no_marker_gives_fallback "hello: 42%" (by decide)⟩

/-- Claim C6: the documented two-category input parses to exactly the two
expected blocks, in first-appearance order with pair order preserved, in
both variants. -/
theorem c6_two_category_example :
    zhExtract "###T1\nA: 10%\nB: 20%\n###T2\nC: 30%"
      = [{ title := "T1", labels := ["A", "B"], values := [10, 20] },
         { title := "T2", labels := ["C"], values := [30] }]
    ∧ apiExtract "###T1\nA: 10%\nB: 20%\n###T2\nC: 30%"
      = [{ title := "T1", labels := ["A", "B"], values := [10, 20] },
         { title := "T2", labels := ["C"], values := [30] }] := by
  constructor
  · decide
  · decide

/-- Counterexample for C3 as stated: in the zh variant a category line
immediately followed by another category line still contributes a block
(with empty labels and values), because the zh flush checks only
`current_title` and not the accumulators. -/
theorem c3_counterexample :
    zhExtract "###T1\n###T2\nC: 30"
      = [{ title := "T1", labels := [], values := [] },
         { title := "T2", labels := ["C"], values := [30] }]
    ∧ ({ title := "T1", labels := [], values := [] } : MetricBlock)
        ∈ zhExtract "###T1\n###T2\nC: 30" := by
  constructor
  · decide
  · decide

/-- The api flush preserves "every emitted block has at least one pair". -/
theorem apiFlush_blocks_nonempty (st : ScanState)
    (h : ∀ b ∈ st.metrics, b.labels ≠ [] ∧ b.values ≠ []) :
    ∀ b ∈ apiFlush st, b.labels ≠ [] ∧ b.values ≠ [] := by
  intro b hb
  unfold apiFlush at hb
  split at hb
  · exact h b hb
  · rename_i hc
    simp only [Bool.or_eq_true, List.isEmpty_iff] at hc
    push_neg at hc
    rcases List.mem_append.1 hb with hin | hin
    · exact h b hin
    · rw [List.mem_singleton] at hin
      subst hin
      refine ⟨?_, hc.2⟩
      simp only [ne_eq, List.map_eq_nil_iff]
      exact hc.1.2

/-- Every block accumulated by an api-variant scan has at least one pair. -/
theorem api_scan_blocks_nonempty : ∀ (lines : List (List Char)) (st : ScanState),
    (∀ b ∈ st.metrics, b.labels ≠ [] ∧ b.values ≠ []) →
    ∀ b ∈ (lines.foldl apiStep st).metrics, b.labels ≠ [] ∧ b.values ≠ []
  | [], st, h => h
  | l :: ls, st, h => by
    have hstep : ∀ b ∈ (apiStep st l).metrics, b.labels ≠ [] ∧ b.values ≠ [] := by
      unfold apiStep
      split
      · exact h
      · split
        · exact apiFlush_blocks_nonempty st h
        · split
          · split <;> exact h
          · exact h
    exact api_scan_blocks_nonempty ls (apiStep st l) hstep

/-- Claim C3 (amended): in the api variant an open category is closed into
the output only when it has accumulated at least one label/value pair, so
every block of every extraction result has non-empty labels and values
(the fallback block included); the zh variant instead emits a block for
any category with a non-empty title, even with zero pairs. -/
theorem c3_api_no_empty_category (s : String) (b : MetricBlock)
    (hb : b ∈ apiExtract s) :
    b.labels ≠ [] ∧ b.values ≠ [] := by
  have hfl : ∀ b2 ∈ apiFlush ((splitLines (trimChars s.data)).foldl apiStep
      { metrics := [], currentTitle := [], labels := [], values := [] }),
      b2.labels ≠ [] ∧ b2.values ≠ [] := by
    apply apiFlush_blocks_nonempty
    apply api_scan_blocks_nonempty
    intro b2 hb2
    exact absurd hb2 (List.not_mem_nil b2)
  have hb2 : b ∈ (let ms := apiFlush ((splitLines (trimChars s.data)).foldl apiStep
      { metrics := [], currentTitle := [], labels := [], values := [] });
      if List.isEmpty ms then [apiFallback] else ms) := hb
  simp only at hb2
  split at hb2
  · rw [List.mem_singleton] at hb2
    subst hb2
    exact ⟨by decide, by decide⟩
  · exact hfl b hb2

/-- Witness for C3 (amended) at a concrete extraction result. -/
theorem c3_api_no_empty_category_witness :
    apiFallback ∈ apiExtract "" ∧ (apiFallback.labels ≠ [] ∧ apiFallback.values ≠ []) :=
  ⟨by decide, c3_api_no_empty_category "" apiFallback (by decide)⟩

/-- Claim C4 (evaluation at the failing input): in the zh variant a metric
line whose value fails to parse still appends its label, leaving the
accumulators unbalanced; on `###T\nA: xx\nB: 20` the returned block has
two labels but one value, violating `len(labels) == len(values)`. -/
theorem c4_zh_unbalanced_block :
    zhExtract "###T\nA: xx\nB: 20"
      = [{ title := "T", labels := ["A", "B"], values := [20] }]
    ∧ (["A", "B"] : List String).length ≠ ([20] : List Int).length := by
  constructor
  · decide
  · decide

/-- Dropping while a predicate holds skips a block of characters that all
satisfy it. -/
theorem dropWhile_append_of_all (p : Char → Bool) :
    ∀ (a b : List Char), a.all p = true → (a ++ b).dropWhile p = b.dropWhile p
  | [], b, _ => rfl
  | c :: a, b, h => by
    simp only [List.all_cons, Bool.and_eq_true] at h
    rw [List.cons_append, List.dropWhile_cons_of_pos h.1]
    exact dropWhile_append_of_all p a b h.2

/-- Taking while a predicate holds collects exactly a leading block that
satisfies it when the continuation starts with a failing character. -/
theorem takeWhile_append_of_all (p : Char → Bool) :
    ∀ (a b : List Char), a.all p = true → b.takeWhile p = [] →
      (a ++ b).takeWhile p = a
  | [], b, _, hb => hb
  | c :: a, b, h, hb => by
    simp only [List.all_cons, Bool.and_eq_true] at h
    rw [List.cons_append, List.takeWhile_cons_of_pos h.1]
    rw [takeWhile_append_of_all p a b h.2 hb]

/-- A string all of whose characters are non-digits has no digit run. -/
theorem firstDigitRunApi_eq_none (l : List Char)
    (h : l.all (fun c => ! c.isDigit) = true) : firstDigitRunApi l = none := by
  unfold firstDigitRunApi
  have : l.dropWhile (fun c => ! c.isDigit) = [] := by
    have := dropWhile_append_of_all (fun c => ! c.isDigit) l [] h
    simpa using this
  rw [this]
  rfl

/-- The digit-run search returns the first maximal run: for any
decomposition into a digit-free part, a non-empty digit run, and a
continuation not starting with a digit, it returns that run. -/
theorem firstDigitRunApi_eq_some (pre run post : List Char)
    (hpre : pre.all (fun c => ! c.isDigit) = true)
    (hrun : run.all Char.isDigit = true)
    (hne : run ≠ [])
    (hpost : post.takeWhile Char.isDigit = []) :
    firstDigitRunApi (pre ++ run ++ post) = some run := by
  obtain ⟨r, rs, rfl⟩ : ∃ r rs, run = r :: rs := by
    cases run with
    | nil => exact absurd rfl hne
    | cons r rs => exact ⟨r, rs, rfl⟩
  have hr : Char.isDigit r = true := by
    simp only [List.all_cons, Bool.and_eq_true] at hrun
    exact hrun.1
  have hdrop : (pre ++ (r :: rs) ++ post).dropWhile (fun c => ! c.isDigit)
      = (r :: rs) ++ post := by
    rw [List.append_assoc, dropWhile_append_of_all (fun c => ! c.isDigit) pre _ hpre]
    rw [List.cons_append, List.dropWhile_cons_of_neg (by simp [hr])]
  unfold firstDigitRunApi
  rw [hdrop]
  rw [if_neg (by simp)]
  rw [takeWhile_append_of_all Char.isDigit (r :: rs) post hrun hpost]

/-- Counterexample for C5 as stated: on the line `A: 4 5` (value part
containing the digit run `4`) the zh variant discards the value instead of
appending 4, while the api variant exhibits the claimed digit-run
behavior; the claim is false for the zh extractor. -/
theorem c5_counterexample :
    zhExtract "###T\nA: 4 5"
      = [{ title := "T", labels := ["A"], values := [] }]
    ∧ apiExtract "###T\nA: 4 5"
      = [{ title := "T", labels := ["A"], values := [4] }] := by
  constructor
  · decide
  · decide

/-- Claim C5 (amended, api variant): for every scanned line that is not
blank, not a marker line, and contains a colon, the api step splits on the
first colon; if the value part decomposes as non-digits, a non-empty digit
run, and a continuation not starting with a digit, the trimmed label and
the run's decimal value are appended; if the value part has no digit at
all, the state is left unchanged (the line is discarded without error and
scanning continues). -/
theorem c5_api_digit_run_parsing (st : ScanState) (line : List Char)
    (h1 : (trimChars line).isEmpty = false)
    (h2 : startsWithHash3 (trimChars line) = false)
    (h3 : (trimChars line).any (fun c => c == ':') = true) :
    ((splitFirstColon (trimChars line)).2.all (fun c => ! c.isDigit) = true →
      apiStep st line = st)
    ∧ (∀ pre run post,
        (splitFirstColon (trimChars line)).2 = pre ++ run ++ post →
        pre.all (fun c => ! c.isDigit) = true →
        run.all Char.isDigit = true → run ≠ [] →
        post.takeWhile Char.isDigit = [] →
        apiStep st line
          = { st with
              labels := st.labels ++ [trimChars (splitFirstColon (trimChars line)).1],
              values := st.values ++ [(digitsToNat run : Int)] }) := by
  constructor
  · intro hall
    unfold apiStep
    rw [if_neg (by simp [h1]), if_neg (by simp [h2]), if_pos h3]
    rw [firstDigitRunApi_eq_none _ hall]
  · intro pre run post hdec hpre hrun hne hpost
    unfold apiStep
    rw [if_neg (by simp [h1]), if_neg (by simp [h2]), if_pos h3]
    rw [hdec, firstDigitRunApi_eq_some pre run post hpre hrun hne hpost]

/-- Witness for C5 (amended) at the concrete line `A: x45y!`. -/
theorem c5_api_digit_run_parsing_witness :
    ((trimChars ("A: x45y!" : String).data).isEmpty = false
      ∧ startsWithHash3 (trimChars ("A: x45y!" : String).data) = false
      ∧ (trimChars ("A: x45y!" : String).data).any (fun c => c == ':') = true)
    ∧ apiStep { metrics := [], currentTitle := ['T'], labels := [], values := [] }
        ("A: x45y!" : String).data
      = { metrics := [], currentTitle := ['T'], labels := [['A']], values := [45] } := by
  refine ⟨⟨by decide, by decide, by decide⟩, ?_⟩
  have h := (c5_api_digit_run_parsing
      { metrics := [], currentTitle := ['T'], labels := [], values := [] }
      ("A: x45y!" : String).data (by decide) (by decide) (by decide)).2
      [' ', 'x'] ['4', '5'] ['y', '!'] (by decide) (by decide) (by decide)
      (by decide) (by decide)
  rw [h]
  decide

/-- Counterexample for C7 as stated: the api variant's `compute_age`
receives only the birth year, so for a birth year equal to the current
year minus 30 it returns 30 regardless of whether the birthday has
occurred, where the claim demands 29 for a not-yet-occurred birthday. -/
theorem c7_counterexample :
    compute_age_api 2026 (some 1996) = 30 ∧ (30 : Int) ≠ 29 := by
  constructor
  · decide
  · decide

/-- Claim C7 (amended): the zh variant's `compute_age` implements the full
rule (year difference, decremented when today's month/day precedes the
birth month/day, so the claim's 30-years scenario yields 29, and an
unparseable birth date yields 0); the api variant uses only the birth
year, returning the plain year difference with no decrement (0 when the
year does not parse). -/
theorem c7_age_computation (today dt : SimpleDate) (cy y : Int)
    (hy : dt.year = today.year - 30)
    (hb : today.month < dt.month ∨ (today.month = dt.month ∧ today.day < dt.day)) :
    compute_age_zh today (some dt) = 29
    ∧ compute_age_zh today none = 0
    ∧ compute_age_api cy (some y) = cy - y
    ∧ compute_age_api cy none = 0 := by
  refine ⟨?_, rfl, rfl, rfl⟩
  show today.year - dt.year - _ = 29
  rw [if_pos hb, hy]
  omega

/-- Witness for C7 (amended): born 1996-12-31, queried on 2026-10-12. -/
theorem c7_age_computation_witness :
    ((⟨1996, 12, 31⟩ : SimpleDate).year = (⟨2026, 10, 12⟩ : SimpleDate).year - 30
      ∧ ((⟨2026, 10, 12⟩ : SimpleDate).month < (⟨1996, 12, 31⟩ : SimpleDate).month
          ∨ ((⟨2026, 10, 12⟩ : SimpleDate).month = (⟨1996, 12, 31⟩ : SimpleDate).month
              ∧ (⟨2026, 10, 12⟩ : SimpleDate).day < (⟨1996, 12, 31⟩ : SimpleDate).day)))
    ∧ (compute_age_zh ⟨2026, 10, 12⟩ (some ⟨1996, 12, 31⟩) = 29
        ∧ compute_age_zh ⟨2026, 10, 12⟩ none = 0
        ∧ compute_age_api 2026 (some 1996) = 2026 - 1996
        ∧ compute_age_api 2026 none = 0) :=
  ⟨⟨by decide, by decide⟩,
    c7_age_computation ⟨2026, 10, 12⟩ ⟨1996, 12, 31⟩ 2026 1996 (by decide) (by decide)⟩

/-- Counterexample for C8 as stated: with an unconfigured client the api
variant's wrapper raises (`if not client: raise ...` sits outside the
`try` block) instead of returning a sentinel string, even when the
underlying call would have succeeded. -/
theorem c8_counterexample :
    get_openai_response_api false (GenOutcome.ok "hello")
      = GenOutcome.error "OpenAI client not initialized. Check server logs for API Key issues." := by
  decide

/-- Claim C8 (amended): the zh wrapper never raises and replaces any
exceptional call outcome with its fixed warning string; the api wrapper
does the same whenever the client is configured, but raises a client-not-
initialized exception when the client is `None`. -/
theorem c8_generator_wrapper (o : GenOutcome) (m : String) :
    (∀ e, get_openai_response_zh o ≠ GenOutcome.error e)
    ∧ get_openai_response_zh (GenOutcome.error m) = GenOutcome.ok "⚠️ 无法生成回应。"
    ∧ (∀ e, get_openai_response_api true o ≠ GenOutcome.error e)
    ∧ get_openai_response_api true (GenOutcome.error m)
        = GenOutcome.ok "⚠️ AI response generation failed due to a server error. Please try again later."
    ∧ (∃ e, get_openai_response_api false o = GenOutcome.error e) := by
  refine ⟨?_, rfl, ?_, rfl, ?_⟩
  · intro e
    cases o <;> simp [get_openai_response_zh]
  · intro e
    cases o <;> simp [get_openai_response_api]
  · exact ⟨_, rfl⟩

/-- Witness for C8 (amended) at a concrete outcome and message. -/
theorem c8_generator_wrapper_witness :
    (∀ e, get_openai_response_zh (GenOutcome.ok "fine") ≠ GenOutcome.error e)
    ∧ get_openai_response_zh (GenOutcome.error "boom") = GenOutcome.ok "⚠️ 无法生成回应。"
    ∧ (∀ e, get_openai_response_api true (GenOutcome.ok "fine") ≠ GenOutcome.error e)
    ∧ get_openai_response_api true (GenOutcome.error "boom")
        = GenOutcome.ok "⚠️ AI response generation failed due to a server error. Please try again later."
    ∧ (∃ e, get_openai_response_api false (GenOutcome.ok "fine") = GenOutcome.error e) :=
  c8_generator_wrapper (GenOutcome.ok "fine") "boom"

/-- Counterexample for C9 as stated: the zh variant performs no
required-field validation at all; a body with every required field missing
passes its only check (the language check) and control proceeds to the
text-generator call instead of a 400 response. -/
theorem c9_counterexample :
    missing_fields emptyBody = ["dob_year", "gender", "country", "condition", "details"]
    ∧ health_analyze_zh emptyBody = HandlerOutcome.invokedGenerator := by
  constructor
  · decide
  · decide

/-- Claim C9 (amended): in the api variant a body with missing or empty
required fields yields a 400-class response whose message lists exactly
the missing field names, and the generator is not invoked; the zh variant
has no such validation and proceeds to invoke the generator for the same
bodies. -/
theorem c9_required_field_validation (data : String → Option String)
    (h : (missing_fields data).isEmpty = false)
    (hlang : data "lang" = none) :
    health_analyze_api true data
      = HandlerOutcome.badRequest
          ("Missing required fields: " ++ joinComma (missing_fields data))
    ∧ health_analyze_api true data ≠ HandlerOutcome.invokedGenerator
    ∧ health_analyze_zh data = HandlerOutcome.invokedGenerator := by
  have happi : health_analyze_api true data
      = HandlerOutcome.badRequest
          ("Missing required fields: " ++ joinComma (missing_fields data)) := by
    unfold health_analyze_api
    rw [if_neg (by simp), if_pos (by simp [h])]
  refine ⟨happi, ?_, ?_⟩
  · rw [happi]
    simp
  · have hl : zhLang data = "zh" := by
      unfold zhLang
      rw [hlang]
      decide
    unfold health_analyze_zh
    rw [hl]
    simp

/-- Witness for C9 (amended) with a body missing only `gender`. -/
theorem c9_required_field_validation_witness :
    ((missing_fields missingGenderBody).isEmpty = false
      ∧ missingGenderBody "lang" = none)
    ∧ (health_analyze_api true missingGenderBody
        = HandlerOutcome.badRequest
            ("Missing required fields: " ++ joinComma (missing_fields missingGenderBody))
      ∧ health_analyze_api true missingGenderBody ≠ HandlerOutcome.invokedGenerator
      ∧ health_analyze_zh missingGenderBody = HandlerOutcome.invokedGenerator) :=
  ⟨⟨by decide, by decide⟩,
    c9_required_field_validation missingGenderBody (by decide) (by decide)⟩

/-- Claim C10: the zh variant's summary prompt embeds exactly the first
nine flattened label/value pairs of the metrics document: the prompt is
the fixed head, the comma-joined nine-pair truncation, and the fixed tail;
the embedded list is at most nine long and is the prefix of the full
flattened pair list whose remainder (everything from the tenth pair on) is
omitted. -/
theorem c10_summary_prompt_truncation (age : Int)
    (gender country concern notes : String) (metrics : List MetricBlock) :
    build_summary_prompt_zh age gender country concern notes metrics
      = summary_prompt_head age gender country concern
          ++ joinComma ((pairStrings metrics).take 9)
          ++ summary_prompt_tail country gender
    ∧ ((pairStrings metrics).take 9).length ≤ 9
    ∧ pairStrings metrics
        = (pairStrings metrics).take 9 ++ (pairStrings metrics).drop 9 := by
  refine ⟨rfl, ?_, (List.take_append_drop 9 (pairStrings metrics)).symm⟩
  rw [List.length_take]
  exact Nat.min_le_left _ _

/-- Witness for C10 at a concrete metrics document with eleven pairs. -/
theorem c10_summary_prompt_truncation_witness :
    build_summary_prompt_zh 40 "女性" "新加坡" "睡眠" "无" sampleMetrics
      = summary_prompt_head 40 "女性" "新加坡" "睡眠"
          ++ joinComma ((pairStrings sampleMetrics).take 9)
          ++ summary_prompt_tail "新加坡" "女性"
    ∧ ((pairStrings sampleMetrics).take 9).length ≤ 9
    ∧ pairStrings sampleMetrics
        = (pairStrings sampleMetrics).take 9 ++ (pairStrings sampleMetrics).drop 9 :=
  c10_summary_prompt_truncation 40 "女性" "新加坡" "睡眠" "无" sampleMetrics
